import Mathlib

/-!
Verification of the kaathuvaakla_kaasu game server core.

Shallow embedding of the session state machine (`src/game_models.py`), the
round driver (`src/main.py`), the booking generator (`src/game_logic.py`)
and the broadcaster (`src/connection_manager.py`).

Python `dict`s are modelled as insertion-ordered association lists with
first-occurrence update semantics (`dictInsert`), matching CPython's
behaviour of keeping an existing key's position on assignment and
iterating `values()` in insertion order.  Python's global `random` stream
is modelled by an explicit oracle passed to each operation that consumes
randomness: scoring takes a `shows : Nat → Bool` coin stream consumed one
flip per passenger in loop order, and booking generation takes a record of
the drawn values together with a validity predicate describing each
distribution's support.
-/

set_option autoImplicit false

namespace KaathuvaaklaKaasu

section Dict

variable {α : Type} {β : Type} [DecidableEq α]

/-- Lookup of the value stored under a key (`d.get(k)` / `d[k]`). -/
def dictGet (d : List (α × β)) (k : α) : Option β :=
  match d with
  | [] => none
  | (k', v) :: rest => if k' = k then some v else dictGet rest k

/-- Assignment `d[k] = v`: replaces the value at the first occurrence of the
key, keeping its position; appends when the key is absent. -/
def dictInsert (d : List (α × β)) (k : α) (v : β) : List (α × β) :=
  match d with
  | [] => [(k, v)]
  | (k', v') :: rest =>
      if k' = k then (k, v) :: rest else (k', v') :: dictInsert rest k v

/-- Membership test `k in d`. -/
def dictContains (d : List (α × β)) (k : α) : Bool :=
  match d with
  | [] => false
  | (k', _) :: rest => k' = k || dictContains rest k

/-- Number of entries stored under a key; `1` for a well-formed dict that
contains the key. -/
def countKey (d : List (α × β)) (k : α) : Nat :=
  match d with
  | [] => 0
  | (k', _) :: rest => (if k' = k then 1 else 0) + countKey rest k

end Dict

/-! ## Constants (src/game_models.py lines 6-11) -/

def FLIGHT_CAPACITY : Nat := 100

def OVERBOOKING_PENALTY_PER_SEAT : Nat := 6000

def UNDERBOOKING_PENALTY_PER_SEAT : Nat := 3000

def AVG_SEAT_PRICE : Nat := 4000

/-! ## Data model (src/game_models.py) -/

/-- Passenger (src/game_models.py lines 13-17). -/
structure Passenger where
  profession : String
  sex : String
  age_group : String
  region : String
deriving DecidableEq

/-- BookingRequest (src/game_models.py lines 19-25); the derived
`demographic_splits` computed field is not needed by any claim. -/
structure BookingRequest where
  booking_id : Nat
  volume : Nat
  price_per_seat : Nat
  anchor_type : String
  anchor_value : String
  passengers : List Passenger
deriving DecidableEq

/-- Player (src/game_models.py lines 38-47).  Money fields are `Int`
(Python ints; `total_score` may be negative).  The extra `score_runs`
field is ghost instrumentation: it counts how many times
`calculate_final_score` has been executed on this player, which is needed
to state the "scores are computed exactly once" property; it is incremented
by `calculate_final_score` and touched nowhere else. -/
structure Player where
  player_id : String
  name : String
  accepted_bookings : List BookingRequest := []
  final_revenue : Int := 0
  overbooking_penalty : Int := 0
  underbooking_penalty : Int := 0
  total_score : Int := 0
  choice_history : List (Nat × String) := []
  show_up_history : List (Nat × Nat) := []
  score_runs : Nat := 0
deriving DecidableEq

/-- GameRoom state (src/game_models.py lines 49-56). -/
structure GameRoom where
  room_id : String
  host_id : String
  players : List (String × Player) := []
  bookings : List BookingRequest := []
  current_round : Nat := 0
  game_status : String := "WAITING"
deriving DecidableEq

/-- GameRoom.add_player (src/game_models.py lines 58-60). -/
def GameRoom.add_player (room : GameRoom) (player_id : String) (name : String) : GameRoom :=
  if dictContains room.players player_id then room
  else
    let fresh : Player := { player_id := player_id, name := name }
    { room with players := dictInsert room.players player_id fresh }

/-- GameRoom.get_current_booking (src/game_models.py lines 62-65):
`self.bookings[self.current_round]` when `0 <= current_round < len`, else
`None`; `current_round : Nat` makes the lower bound vacuous. -/
def GameRoom.get_current_booking (room : GameRoom) : Option BookingRequest :=
  if room.current_round < room.bookings.length then
    room.bookings[room.current_round]?
  else
    none

/-! ## Scoring (src/game_models.py lines 98-124)

`random.random() > CANCELLATION_PROBABILITY` is one Bernoulli flip per
passenger; the global PRNG is modelled by the coin stream
`shows : Nat → Bool` (`true` = the passenger shows up), consumed at
consecutive positions in the order of the source's nested loops. -/

/-- Count of passengers of one booking that show up: the inner loop of
`calculate_final_score` (src/game_models.py lines 104-107), flips taken
from stream positions `pos, pos+1, ...`. -/
def passengersShowedUp (shows : Nat → Bool) (pos : Nat) (b : BookingRequest) : Nat :=
  (List.range b.passengers.length).countP (fun j => shows (pos + j))

/-- The outer loop of `calculate_final_score` (src/game_models.py lines
103-113): returns `(total_showed_up, total_revenue, show_up_history)`. -/
def scoreLoop (shows : Nat → Bool) (pos : Nat) (bs : List BookingRequest)
    (hist : List (Nat × Nat)) : Nat × Int × List (Nat × Nat) :=
  match bs with
  | [] => (0, 0, hist)
  | b :: rest =>
      let n := passengersShowedUp shows pos b
      let r := scoreLoop shows (pos + b.passengers.length) rest
        (dictInsert hist b.booking_id n)
      (n + r.1, (n : Int) * (b.price_per_seat : Int) + r.2.1, r.2.2)

/-- GameRoom.calculate_final_score (src/game_models.py lines 98-124),
with the random draw replaced by the explicit coin stream.  Note the
penalty fields are only assigned in their own branch: a pre-existing
non-zero value in the other field survives. -/
def calculate_final_score (shows : Nat → Bool) (player : Player) : Player :=
  let r := scoreLoop shows 0 player.accepted_bookings player.show_up_history
  let total_showed_up := r.1
  let total_revenue := r.2.1
  let p1 := { player with
                show_up_history := r.2.2,
                final_revenue := total_revenue,
                score_runs := player.score_runs + 1 }
  let p2 :=
    if FLIGHT_CAPACITY < total_showed_up then
      { p1 with overbooking_penalty :=
          ((total_showed_up : Int) - (FLIGHT_CAPACITY : Int))
            * (OVERBOOKING_PENALTY_PER_SEAT : Int) }
    else if total_showed_up < FLIGHT_CAPACITY then
      { p1 with underbooking_penalty :=
          ((FLIGHT_CAPACITY : Int) - (total_showed_up : Int))
            * (UNDERBOOKING_PENALTY_PER_SEAT : Int) }
    else p1
  { p2 with total_score :=
      p2.final_revenue - p2.overbooking_penalty - p2.underbooking_penalty }

/-- GameRoom.end_game (src/game_models.py lines 93-96): sets FINISHED and
runs the scoring pass over every player in insertion order. -/
def GameRoom.end_game (shows : Nat → Bool) (room : GameRoom) : GameRoom :=
  { room with
      game_status := "FINISHED",
      players := room.players.map
        (fun kv => (kv.1, calculate_final_score shows kv.2)) }

/-- The body of the auto-reject loop of `advance_to_next_round`
(src/game_models.py lines 71-74). -/
def autoRejectPlayer (host_id : String) (b : BookingRequest) (p : Player) : Player :=
  if p.player_id ≠ host_id ∧ dictContains p.choice_history b.booking_id = false then
    { p with choice_history := dictInsert p.choice_history b.booking_id "Rejected" }
  else p

/-- GameRoom.advance_to_next_round (src/game_models.py lines 67-79). -/
def GameRoom.advance_to_next_round (shows : Nat → Bool) (room : GameRoom) : GameRoom :=
  let room1 :=
    match room.get_current_booking with
    | some current_booking =>
        let ps := room.players.map
          (fun kv => (kv.1, autoRejectPlayer room.host_id current_booking kv.2))
        { room with players := ps }
    | none => room
  if room1.current_round < room1.bookings.length then
    let room2 := { room1 with current_round := room1.current_round + 1 }
    if room2.current_round = room2.bookings.length then room2.end_game shows
    else room2
  else room1

/-- GameRoom.player_accept_booking (src/game_models.py lines 81-87): no
guard against an already-recorded decision; the booking is appended and the
history entry assigned unconditionally when player and booking exist. -/
def GameRoom.player_accept_booking (room : GameRoom) (player_id : String) : GameRoom :=
  match dictGet room.players player_id, room.get_current_booking with
  | some player, some current_booking =>
      let player1 := { player with
        accepted_bookings := player.accepted_bookings ++ [current_booking],
        choice_history :=
          dictInsert player.choice_history current_booking.booking_id "Accepted" }
      { room with players := dictInsert room.players player_id player1 }
  | _, _ => room

/-- GameRoom.start_game (src/game_models.py lines 89-91): assigns
unconditionally, with no check of the current status. -/
def GameRoom.start_game (room : GameRoom) : GameRoom :=
  { room with game_status := "IN_PROGRESS", current_round := 0 }

/-! ## Round driver (src/main.py lines 37-104)

Only room-state effects are modelled: template rendering and websocket
sends do not touch the `GameRoom`, and `asyncio.create_task(round_timer ...)`
is modelled by applying `roundTimer` to the resulting state separately. -/

/-- start_new_round (src/main.py lines 37-95), room-state effects for a
room present in `game_manager`: with a current booking it only renders,
broadcasts and spawns the timer task; with none it calls
`game_room.end_game()` (a second scoring pass when the game already
finished inside `advance_to_next_round`). -/
def startNewRound (shows : Nat → Bool) (room : GameRoom) : GameRoom :=
  match room.get_current_booking with
  | some _ => room
  | none => room.end_game shows

/-- round_timer (src/main.py lines 97-104), the body after the sleep, for
a room present in `game_manager`: the stale-timer guard compares the
captured round number with `current_round`, then advances and drives the
next round. -/
def roundTimer (shows : Nat → Bool) (room : GameRoom) (round_number : Nat) : GameRoom :=
  if room.current_round = round_number then
    startNewRound shows (room.advance_to_next_round shows)
  else room

/-- The `reject_booking` branch of `websocket_endpoint` (src/main.py lines
207-209): it renders a "Rejected" confirmation back to the sender and
performs no mutation at all on the game room (there is no reject method on
`GameRoom` to call). -/
def handleRejectBooking (room : GameRoom) (_player_id : String) : GameRoom :=
  room

/-! ## Booking generation (src/game_logic.py)

The category pools (src/game_logic.py lines 6-16). -/

def PROFESSIONS : List String :=
  ["Engineer", "Doctor", "Artist", "Farmer", "Teacher", "Lawyer", "Student",
   "Politician"]

def SEXES : List String := ["Male", "Female"]

def AGE_GROUPS : List String := ["18-25", "26-40", "41-60", "60+"]

def INDIAN_STATES : List String :=
  ["Andhra Pradesh", "Arunachal Pradesh", "Assam", "Bihar", "Chhattisgarh",
   "Goa", "Gujarat", "Haryana", "Himachal Pradesh", "Jharkhand", "Karnataka",
   "Kerala", "Madhya Pradesh", "Maharashtra", "Manipur", "Meghalaya",
   "Mizoram", "Nagaland", "Odisha", "Punjab", "Rajasthan", "Sikkim",
   "Tamil Nadu", "Telangana", "Tripura", "Uttar Pradesh", "Uttarakhand",
   "West Bengal", "Delhi", "Puducherry"]

def TOTAL_BOOKINGS_PER_GAME : Nat := 15

/-- The non-anchored draws of one passenger profile: the four
`random.choice` calls of src/game_logic.py lines 46-50 (each value used
only when its dimension is not the anchor). -/
structure PassengerRand where
  profession : String
  sex : String
  age_group : String
  region : String
deriving DecidableEq

/-- One passenger of a booking (src/game_logic.py lines 45-52): the
anchored dimension is forced to the anchor value, every other dimension
takes the drawn value. -/
def mkPassenger (anchor_type : String) (anchor_value : String)
    (r : PassengerRand) : Passenger :=
  { profession := if anchor_type = "profession" then anchor_value else r.profession,
    sex := if anchor_type = "sex" then anchor_value else r.sex,
    age_group := if anchor_type = "age_group" then anchor_value else r.age_group,
    region := if anchor_type = "region" then anchor_value else r.region }

/-- All values drawn from the PRNG for one loop iteration of
`generate_bookings` (src/game_logic.py lines 24-52).  `price_per_seat`
stands for `int(4000 * random.uniform(0.75, 1.5))`. -/
structure BookingRand where
  volume : Nat
  price_per_seat : Nat
  anchor_type : String
  selected_regions : List String
  anchor_value : String
  passenger_rands : List PassengerRand
deriving DecidableEq, Inhabited

/-- The support of each distribution drawn from in one iteration of
`generate_bookings`: `random.randint(5, 15)` for the volume;
`random.choice` of the four anchor dimension tags; `random.sample` of
`min(len(INDIAN_STATES), 3)` distinct states; the anchor value from the
pool of its dimension — for the region dimension from the FULL
`INDIAN_STATES` list (src/game_logic.py line 41), not from
`selected_regions`; one profile draw per passenger, whose region component
comes from `selected_regions` (line 50). -/
def BookingRand.Valid (r : BookingRand) : Prop :=
  5 ≤ r.volume ∧ r.volume ≤ 15 ∧
  r.anchor_type ∈ ["profession", "sex", "age_group", "region"] ∧
  r.selected_regions.length = min INDIAN_STATES.length 3 ∧
  r.selected_regions.Nodup ∧
  (∀ s ∈ r.selected_regions, s ∈ INDIAN_STATES) ∧
  (r.anchor_type = "profession" → r.anchor_value ∈ PROFESSIONS) ∧
  (r.anchor_type = "sex" → r.anchor_value ∈ SEXES) ∧
  (r.anchor_type = "age_group" → r.anchor_value ∈ AGE_GROUPS) ∧
  (r.anchor_type = "region" → r.anchor_value ∈ INDIAN_STATES) ∧
  r.passenger_rands.length = r.volume ∧
  (∀ pr ∈ r.passenger_rands,
    pr.profession ∈ PROFESSIONS ∧ pr.sex ∈ SEXES ∧
    pr.age_group ∈ AGE_GROUPS ∧ pr.region ∈ r.selected_regions)

instance (r : BookingRand) : Decidable r.Valid := by
  unfold BookingRand.Valid; infer_instance

/-- Evaluation of `anchor_type.replace('_', ' ').title()` (src/game_logic.py
line 58) on the four tags the anchor dimension can be. -/
def anchorTypeTitle (s : String) : String :=
  if s = "profession" then "Profession"
  else if s = "sex" then "Sex"
  else if s = "age_group" then "Age Group"
  else if s = "region" then "Region"
  else s

/-- One loop iteration of `generate_bookings` (src/game_logic.py lines
24-61), as a function of the loop index and the drawn values. -/
def generateBooking (i : Nat) (r : BookingRand) : BookingRequest :=
  { booking_id := i,
    volume := r.volume,
    price_per_seat := r.price_per_seat,
    anchor_type := anchorTypeTitle r.anchor_type,
    anchor_value := r.anchor_value,
    passengers := r.passenger_rands.map (mkPassenger r.anchor_type r.anchor_value) }

/-- generate_bookings (src/game_logic.py lines 18-63): fifteen iterations,
booking i built from the i-th block of drawn values. -/
def generate_bookings (rs : List BookingRand) : List BookingRequest :=
  (List.range TOTAL_BOOKINGS_PER_GAME).map (fun i => generateBooking i (rs.getD i default))

/-! ## Broadcaster (src/connection_manager.py)

A websocket connection is modelled by its identity together with whether
`send_text` on it raises `RuntimeError` (closed socket). -/

structure Conn where
  conn_id : Nat
  closed : Bool
deriving DecidableEq

/-- `await connection.send_text(msg)`: raises exactly on a closed socket. -/
def sendText (c : Conn) (msg : String) : Except String String :=
  if c.closed then Except.error "Cannot call send once a close message has been sent"
  else Except.ok msg

/-- ConnectionManager.broadcast_html (src/connection_manager.py lines
87-101) for one room's registered `(player_id, websocket)` list: attempts
delivery to every pair in order; the per-connection try/except catches the
RuntimeError of a closed socket and continues.  The result is the ordered
log of successful deliveries; an uncaught exception would surface as
`Except.error`. -/
def broadcast_html (conns : List (String × Conn)) (html : String) :
    Except String (List (String × String)) :=
  match conns with
  | [] => Except.ok []
  | (pid, c) :: rest =>
      match sendText c html with
      | Except.ok _ =>
          match broadcast_html rest html with
          | Except.ok delivered => Except.ok ((pid, html) :: delivered)
          | Except.error e => Except.error e
      | Except.error _ => broadcast_html rest html

/-! ## Dictionary lemmas -/

section DictLemmas

variable {α : Type} {β : Type} [DecidableEq α]

theorem dictGet_insert_self (d : List (α × β)) (k : α) (v : β) :
    dictGet (dictInsert d k v) k = some v := by
  induction d with
  | nil => simp [dictInsert, dictGet]
  | cons hd tl ih =>
      obtain ⟨k', v'⟩ := hd
      by_cases h : k' = k <;> simp [dictInsert, dictGet, h, ih]

theorem dictGet_map (d : List (α × β)) (f : β → β) (k : α) :
    dictGet (d.map (fun kv => (kv.1, f kv.2))) k = (dictGet d k).map f := by
  induction d with
  | nil => rfl
  | cons hd tl ih =>
      obtain ⟨k', v'⟩ := hd
      by_cases h : k' = k <;> simp [dictGet, h, ih]

theorem countKey_insert (d : List (α × β)) (k : α) (v : β)
    (h : countKey d k ≤ 1) : countKey (dictInsert d k v) k = 1 := by
  induction d with
  | nil => simp [dictInsert, countKey]
  | cons hd tl ih =>
      obtain ⟨k', v'⟩ := hd
      by_cases hk : k' = k
      · subst hk
        simp only [dictInsert, if_pos rfl]
        simp [countKey] at h ⊢
        omega
      · simp only [dictInsert, if_neg hk]
        simp only [countKey, if_neg hk, Nat.zero_add] at h ⊢
        exact ih h

end DictLemmas

/-! ## Lemmas about the session operations -/

theorem get_current_booking_lt {room : GameRoom} {b : BookingRequest}
    (h : room.get_current_booking = some b) :
    room.current_round < room.bookings.length := by
  by_contra hn
  rw [GameRoom.get_current_booking, if_neg hn] at h
  exact Option.noConfusion h

/-- The scoring pass never touches a player's decision record. -/
theorem calculate_final_score_choice_history (shows : Nat → Bool) (p : Player) :
    (calculate_final_score shows p).choice_history = p.choice_history := by
  unfold calculate_final_score
  dsimp only
  split_ifs <;> rfl

/-- Behaviour of one `advance_to_next_round` call on one player's decision
record, given a current booking: the auto-reject entry appears exactly for
a non-host player without a recorded decision; everything else (the host
included) keeps its record, whether or not the advance ends the game. -/
theorem advance_choice_history (shows : Nat → Bool) (room : GameRoom)
    (b : BookingRequest) (hb : room.get_current_booking = some b)
    (pid : String) (p : Player) (hp : dictGet room.players pid = some p) :
    ∃ p', dictGet (room.advance_to_next_round shows).players pid = some p' ∧
      p'.choice_history =
        (if p.player_id ≠ room.host_id ∧
            dictContains p.choice_history b.booking_id = false
         then dictInsert p.choice_history b.booking_id "Rejected"
         else p.choice_history) := by
  have hlt : room.current_round < room.bookings.length := get_current_booking_lt hb
  unfold GameRoom.advance_to_next_round
  rw [hb]
  dsimp only
  rw [if_pos hlt]
  by_cases hfin : room.current_round + 1 = room.bookings.length
  · rw [if_pos hfin]
    refine ⟨calculate_final_score shows (autoRejectPlayer room.host_id b p), ?_, ?_⟩
    · unfold GameRoom.end_game
      dsimp only
      rw [dictGet_map, dictGet_map, hp]
      rfl
    · rw [calculate_final_score_choice_history]
      unfold autoRejectPlayer
      split_ifs <;> rfl
  · rw [if_neg hfin]
    refine ⟨autoRejectPlayer room.host_id b p, ?_, ?_⟩
    · dsimp only
      rw [dictGet_map, hp]
      rfl
    · unfold autoRejectPlayer
      split_ifs <;> rfl

/-! ## Scoring lemmas -/

/-- Per-booking show-up counts of a player's accepted list, in loop order. -/
def showUpCountsFrom (shows : Nat → Bool) : Nat → List BookingRequest → List Nat
  | _, [] => []
  | pos, b :: rest =>
      passengersShowedUp shows pos b
        :: showUpCountsFrom shows (pos + b.passengers.length) rest

/-- Sum over the accepted bookings of show-ups times price per seat. -/
def revenueFrom (shows : Nat → Bool) : Nat → List BookingRequest → Int
  | _, [] => 0
  | pos, b :: rest =>
      (passengersShowedUp shows pos b : Int) * (b.price_per_seat : Int)
        + revenueFrom shows (pos + b.passengers.length) rest

theorem scoreLoop_total (shows : Nat → Bool) (pos : Nat)
    (bs : List BookingRequest) (hist : List (Nat × Nat)) :
    (scoreLoop shows pos bs hist).1 = (showUpCountsFrom shows pos bs).sum := by
  induction bs generalizing pos hist with
  | nil => rfl
  | cons b rest ih => simp [scoreLoop, showUpCountsFrom, ih]

theorem scoreLoop_revenue (shows : Nat → Bool) (pos : Nat)
    (bs : List BookingRequest) (hist : List (Nat × Nat)) :
    (scoreLoop shows pos bs hist).2.1 = revenueFrom shows pos bs := by
  induction bs generalizing pos hist with
  | nil => rfl
  | cons b rest ih => simp [scoreLoop, revenueFrom, ih]

theorem calc_final_revenue (shows : Nat → Bool) (p : Player) :
    (calculate_final_score shows p).final_revenue
      = revenueFrom shows 0 p.accepted_bookings := by
  unfold calculate_final_score
  dsimp only
  split_ifs <;> simp [scoreLoop_revenue]

theorem calc_overbooking (shows : Nat → Bool) (p : Player) :
    (calculate_final_score shows p).overbooking_penalty
      = (if FLIGHT_CAPACITY < (showUpCountsFrom shows 0 p.accepted_bookings).sum
         then (((showUpCountsFrom shows 0 p.accepted_bookings).sum : Int)
                 - (FLIGHT_CAPACITY : Int)) * (OVERBOOKING_PENALTY_PER_SEAT : Int)
         else p.overbooking_penalty) := by
  unfold calculate_final_score
  dsimp only
  simp only [scoreLoop_total]
  split_ifs <;> rfl

theorem calc_underbooking (shows : Nat → Bool) (p : Player) :
    (calculate_final_score shows p).underbooking_penalty
      = (if FLIGHT_CAPACITY < (showUpCountsFrom shows 0 p.accepted_bookings).sum
         then p.underbooking_penalty
         else if (showUpCountsFrom shows 0 p.accepted_bookings).sum < FLIGHT_CAPACITY
         then ((FLIGHT_CAPACITY : Int)
                 - ((showUpCountsFrom shows 0 p.accepted_bookings).sum : Int))
                * (UNDERBOOKING_PENALTY_PER_SEAT : Int)
         else p.underbooking_penalty) := by
  unfold calculate_final_score
  dsimp only
  simp only [scoreLoop_total]
  split_ifs <;> rfl

theorem calc_total_score (shows : Nat → Bool) (p : Player) :
    (calculate_final_score shows p).total_score
      = (calculate_final_score shows p).final_revenue
        - (calculate_final_score shows p).overbooking_penalty
        - (calculate_final_score shows p).underbooking_penalty := by
  unfold calculate_final_score
  dsimp only

/-! ## Concrete test fixtures -/

def samplePassenger : Passenger :=
  { profession := "Doctor", sex := "Male", age_group := "26-40", region := "Goa" }

def sampleBooking (i : Nat) : BookingRequest :=
  { booking_id := i, volume := 1, price_per_seat := 4000,
    anchor_type := "Sex", anchor_value := "Male",
    passengers := [samplePassenger] }

def hostP : Player := { player_id := "h", name := "H (Host)" }

def freshP : Player := { player_id := "p", name := "P" }

/-- A one-booking room in its last (and only) round. -/
def roomLastRound : GameRoom :=
  { room_id := "r0", host_id := "h",
    players := [("h", hostP), ("p", freshP)],
    bookings := [sampleBooking 0],
    current_round := 0, game_status := "IN_PROGRESS" }

/-- A room whose game already finished. -/
def finishedRoom : GameRoom :=
  { room_id := "r1", host_id := "h",
    players := [("h", hostP)],
    bookings := [sampleBooking 0],
    current_round := 1, game_status := "FINISHED" }

/-- A room still in the lobby, bookings already generated. -/
def waitingRoom : GameRoom :=
  { room_id := "r2", host_id := "h",
    players := [("h", hostP), ("p", freshP)],
    bookings := [sampleBooking 0],
    current_round := 0, game_status := "WAITING" }

/-- Player "p" after accepting booking 0. -/
def decidedP : Player :=
  { freshP with accepted_bookings := [sampleBooking 0],
                choice_history := [(0, "Accepted")] }

/-- A room where player "p" has already accepted the current booking. -/
def decidedRoom : GameRoom :=
  { room_id := "r3", host_id := "h",
    players := [("h", hostP), ("p", decidedP)],
    bookings := [sampleBooking 0],
    current_round := 0, game_status := "IN_PROGRESS" }

/-! ## Claims -/

/-- Claim C1: the spec requires that once `current_round` reaches
`len(bookings)` the status is FINISHED and `calculate_final_score` runs
exactly once per player; completing the final round through the
round-timer path must not score a second time.  The code violates the
exactly-once part: `round_timer` calls `advance_to_next_round` (whose
`end_game` scores every player) and then `start_new_round`, which sees no
current booking and calls `end_game` a second time.  On a one-booking
room the timer path leaves every player with two scoring runs. -/
theorem c1_timer_scores_twice :
    (roundTimer (fun _ => true) roomLastRound 0).game_status = "FINISHED" ∧
    (roundTimer (fun _ => true) roomLastRound 0).current_round
      = roomLastRound.bookings.length ∧
    (dictGet (roundTimer (fun _ => true) roomLastRound 0).players "p").map
      Player.score_runs = some 2 ∧
    (dictGet (roundTimer (fun _ => true) roomLastRound 0).players "h").map
      Player.score_runs = some 2 := by
  decide

/-- Claim C2 counterexample: calling start on a FINISHED session does not
leave it unchanged — it resets the status to IN_PROGRESS and the round
index to 0. -/
theorem c2_counterexample :
    finishedRoom.game_status = "FINISHED" ∧
    finishedRoom.current_round = 1 ∧
    finishedRoom.start_game ≠ finishedRoom ∧
    (finishedRoom.start_game).game_status = "IN_PROGRESS" ∧
    (finishedRoom.start_game).current_round = 0 := by
  decide

/-- Claim C2 amended: `start_game` has no WAITING guard; on every session,
whatever its status, it sets status to IN_PROGRESS and resets
`current_round` to 0 (leaving the other fields unchanged), so a FINISHED
session re-enters IN_PROGRESS and an advanced round index is reset. -/
theorem c2_start_game_unconditional (room : GameRoom) :
    (room.start_game).game_status = "IN_PROGRESS" ∧
    (room.start_game).current_round = 0 ∧
    (room.start_game).room_id = room.room_id ∧
    (room.start_game).host_id = room.host_id ∧
    (room.start_game).players = room.players ∧
    (room.start_game).bookings = room.bookings := by
  simp [GameRoom.start_game]

/-- Claim C5 counterexample: in a WAITING session with a booking at index
0, `get_current_booking` returns that booking, not none — the status is
never consulted. -/
theorem c5_counterexample :
    waitingRoom.game_status = "WAITING" ∧
    waitingRoom.get_current_booking = some (sampleBooking 0) := by
  decide

/-- Claim C5 amended: `get_current_booking` returns the booking at index
`current_round` whenever that index is in range and none only when
`current_round ≥ len(bookings)`; the session status plays no part (the
result is the same under any status override). -/
theorem c5_booking_ignores_status (room : GameRoom) (s : String) :
    ({ room with game_status := s }).get_current_booking
      = room.bookings[room.current_round]? := by
  show (if room.current_round < room.bookings.length then
          room.bookings[room.current_round]?
        else none)
      = room.bookings[room.current_round]?
  split_ifs with h
  · rfl
  · exact (List.getElem?_eq_none (Nat.le_of_not_lt h)).symm

/-- Claim C3 counterexample: player "p" already has a recorded decision
for booking 0 ("Accepted", with the booking in the accepted list), yet a
further accept call extends `accepted_bookings` from one entry to two —
the second call is not a no-op. -/
theorem c3_counterexample :
    (dictGet decidedRoom.players "p").map
      (fun p => p.accepted_bookings.length) = some 1 ∧
    (dictGet decidedRoom.players "p").map
      (fun p => countKey p.choice_history 0) = some 1 ∧
    (dictGet (decidedRoom.player_accept_booking "p").players "p").map
      (fun p => p.accepted_bookings.length) = some 2 := by
  decide

/-- Claim C3 amended: `player_accept_booking` has no duplicate guard — a
second accept for the same current booking appends the booking to the
player's `accepted_bookings` again, so two accepts leave it extended by
two copies; only the `choice_history` half of the claim survives: being a
dict keyed by booking id, it still ends with exactly one entry for that
booking id. -/
theorem c3_duplicate_accept (room : GameRoom) (pid : String) (p : Player)
    (b : BookingRequest)
    (hp : dictGet room.players pid = some p)
    (hb : room.get_current_booking = some b)
    (hone : countKey p.choice_history b.booking_id ≤ 1) :
    ∃ p', dictGet
        ((room.player_accept_booking pid).player_accept_booking pid).players pid
          = some p' ∧
      p'.accepted_bookings = p.accepted_bookings ++ [b, b] ∧
      countKey p'.choice_history b.booking_id = 1 := by
  have hb1 : ∀ ps, ({ room with players := ps } : GameRoom).get_current_booking
      = some b := fun ps => hb
  unfold GameRoom.player_accept_booking
  rw [hp, hb]
  dsimp only
  rw [hb1, dictGet_insert_self]
  dsimp only
  rw [dictGet_insert_self]
  refine ⟨_, rfl, ?_, ?_⟩
  · simp
  · exact countKey_insert _ _ _ (Nat.le_of_eq (countKey_insert _ _ _ hone))

/-- Claim C3 witness: the amended claim applied to the concrete decided
room. -/
theorem c3_witness :
    dictGet decidedRoom.players "p" = some decidedP ∧
    decidedRoom.get_current_booking = some (sampleBooking 0) ∧
    countKey decidedP.choice_history (sampleBooking 0).booking_id ≤ 1 ∧
    (∃ p', dictGet
        ((decidedRoom.player_accept_booking "p").player_accept_booking "p").players "p"
          = some p' ∧
      p'.accepted_bookings
          = decidedP.accepted_bookings ++ [sampleBooking 0, sampleBooking 0] ∧
      countKey p'.choice_history (sampleBooking 0).booking_id = 1) :=
  ⟨by decide, by decide, by decide,
    c3_duplicate_accept decidedRoom "p" decidedP (sampleBooking 0)
      (by decide) (by decide) (by decide)⟩

/-- Claim C4 counterexample: player "p" sends a reject for the current
round of a live room; afterwards the player's `choice_history` is still
empty — nothing was recorded, while the claim requires
`choice_history[0] = Rejected` before any advance. -/
theorem c4_counterexample :
    roomLastRound.get_current_booking = some (sampleBooking 0) ∧
    (dictGet (handleRejectBooking roomLastRound "p").players "p").map
      Player.choice_history = some [] := by
  decide

/-- Claim C4 amended: the `reject_booking` action mutates no room state at
all (the handler only renders a confirmation to the sender); the Rejected
entry for the current booking id appears in a non-host undecided player's
`choice_history` only later, through the auto-reject pass of
`advance_to_next_round`. -/
theorem c4_reject_records_nothing (room : GameRoom) (pid : String) (p : Player)
    (b : BookingRequest) (shows : Nat → Bool)
    (hp : dictGet room.players pid = some p)
    (hb : room.get_current_booking = some b)
    (hhost : p.player_id ≠ room.host_id)
    (hnd : dictContains p.choice_history b.booking_id = false) :
    handleRejectBooking room pid = room ∧
    ∃ p', dictGet
        ((handleRejectBooking room pid).advance_to_next_round shows).players pid
          = some p' ∧
      dictGet p'.choice_history b.booking_id = some "Rejected" := by
  refine ⟨rfl, ?_⟩
  obtain ⟨p', h1, h2⟩ := advance_choice_history shows room b hb pid p hp
  refine ⟨p', h1, ?_⟩
  rw [h2, if_pos ⟨hhost, hnd⟩, dictGet_insert_self]

/-- Claim C4 witness: the amended claim applied to the concrete last-round
room and its undecided player "p". -/
theorem c4_witness :
    dictGet roomLastRound.players "p" = some freshP ∧
    roomLastRound.get_current_booking = some (sampleBooking 0) ∧
    freshP.player_id ≠ roomLastRound.host_id ∧
    dictContains freshP.choice_history (sampleBooking 0).booking_id = false ∧
    (handleRejectBooking roomLastRound "p" = roomLastRound ∧
     ∃ p', dictGet
        ((handleRejectBooking roomLastRound "p").advance_to_next_round
          (fun _ => true)).players "p" = some p' ∧
      dictGet p'.choice_history (sampleBooking 0).booking_id = some "Rejected") :=
  ⟨by decide, by decide, by decide, by decide,
    c4_reject_records_nothing roomLastRound "p" freshP (sampleBooking 0)
      (fun _ => true) (by decide) (by decide) (by decide) (by decide)⟩

/-- Claim C6: with a current booking, `advance_to_next_round` records
Rejected for exactly the non-host players without a recorded decision for
that booking id; a player with an existing decision keeps their record
unchanged, and the host's `choice_history` is never modified. -/
theorem c6_advance_auto_rejects (room : GameRoom) (shows : Nat → Bool)
    (b : BookingRequest) (pid : String) (p : Player)
    (hb : room.get_current_booking = some b)
    (hp : dictGet room.players pid = some p) :
    ∃ p', dictGet (room.advance_to_next_round shows).players pid = some p' ∧
      p'.choice_history =
        (if p.player_id ≠ room.host_id ∧
            dictContains p.choice_history b.booking_id = false
         then dictInsert p.choice_history b.booking_id "Rejected"
         else p.choice_history) :=
  advance_choice_history shows room b hb pid p hp

/-- Claim C6 witness: the host of the concrete last-round room keeps an
untouched (empty) decision record through the advance. -/
theorem c6_witness :
    roomLastRound.get_current_booking = some (sampleBooking 0) ∧
    dictGet roomLastRound.players "h" = some hostP ∧
    (∃ p', dictGet
        (roomLastRound.advance_to_next_round (fun _ => false)).players "h"
          = some p' ∧
      p'.choice_history =
        (if hostP.player_id ≠ roomLastRound.host_id ∧
            dictContains hostP.choice_history (sampleBooking 0).booking_id = false
         then dictInsert hostP.choice_history (sampleBooking 0).booking_id "Rejected"
         else hostP.choice_history)) :=
  ⟨by decide, by decide,
    c6_advance_auto_rejects roomLastRound (fun _ => false) (sampleBooking 0)
      "h" hostP (by decide) (by decide)⟩

/-- Claim C7: for a player with zero penalty fields, under any show-up
outcome with per-booking counts summing to S, the scoring pass yields
`final_revenue` = sum of show-ups times price per seat over the accepted
bookings; overbooking penalty `(S - 100) * 6000` (and no underbooking
penalty) when `S > 100`; underbooking penalty `(100 - S) * 3000` (and no
overbooking penalty) when `S < 100`; both penalties zero at `S = 100`;
and `total_score = final_revenue - overbooking - underbooking`. -/
theorem c7_scoring (shows : Nat → Bool) (p : Player)
    (hov : p.overbooking_penalty = 0) (hun : p.underbooking_penalty = 0) :
    (calculate_final_score shows p).final_revenue
        = revenueFrom shows 0 p.accepted_bookings ∧
    (100 < (showUpCountsFrom shows 0 p.accepted_bookings).sum →
      (calculate_final_score shows p).overbooking_penalty
          = (((showUpCountsFrom shows 0 p.accepted_bookings).sum : Int) - 100) * 6000 ∧
      (calculate_final_score shows p).underbooking_penalty = 0) ∧
    ((showUpCountsFrom shows 0 p.accepted_bookings).sum < 100 →
      (calculate_final_score shows p).underbooking_penalty
          = (100 - ((showUpCountsFrom shows 0 p.accepted_bookings).sum : Int)) * 3000 ∧
      (calculate_final_score shows p).overbooking_penalty = 0) ∧
    ((showUpCountsFrom shows 0 p.accepted_bookings).sum = 100 →
      (calculate_final_score shows p).overbooking_penalty = 0 ∧
      (calculate_final_score shows p).underbooking_penalty = 0) ∧
    (calculate_final_score shows p).total_score
      = (calculate_final_score shows p).final_revenue
        - (calculate_final_score shows p).overbooking_penalty
        - (calculate_final_score shows p).underbooking_penalty := by
  refine ⟨calc_final_revenue shows p, ?_, ?_, ?_, calc_total_score shows p⟩
  · intro h
    have h1 : FLIGHT_CAPACITY < (showUpCountsFrom shows 0 p.accepted_bookings).sum := h
    rw [calc_overbooking, calc_underbooking, if_pos h1, if_pos h1]
    refine ⟨?_, hun⟩
    norm_num [FLIGHT_CAPACITY, OVERBOOKING_PENALTY_PER_SEAT]
  · intro h
    have h1 : ¬ FLIGHT_CAPACITY < (showUpCountsFrom shows 0 p.accepted_bookings).sum := by
      unfold FLIGHT_CAPACITY
      omega
    have h2 : (showUpCountsFrom shows 0 p.accepted_bookings).sum < FLIGHT_CAPACITY := h
    rw [calc_underbooking, calc_overbooking, if_neg h1, if_neg h1, if_pos h2]
    refine ⟨?_, hov⟩
    norm_num [FLIGHT_CAPACITY, UNDERBOOKING_PENALTY_PER_SEAT]
  · intro h
    have h1 : ¬ FLIGHT_CAPACITY < (showUpCountsFrom shows 0 p.accepted_bookings).sum := by
      unfold FLIGHT_CAPACITY
      omega
    have h2 : ¬ (showUpCountsFrom shows 0 p.accepted_bookings).sum < FLIGHT_CAPACITY := by
      unfold FLIGHT_CAPACITY
      omega
    rw [calc_overbooking, calc_underbooking, if_neg h1, if_neg h1, if_neg h2]
    exact ⟨hov, hun⟩

/-- Claim C7 witness: the scoring characterisation applied to the concrete
player "p" (no accepted bookings) under the all-show-up coin stream. -/
theorem c7_witness :
    freshP.overbooking_penalty = 0 ∧ freshP.underbooking_penalty = 0 ∧
    ((calculate_final_score (fun _ => true) freshP).final_revenue
        = revenueFrom (fun _ => true) 0 freshP.accepted_bookings ∧
     (100 < (showUpCountsFrom (fun _ => true) 0 freshP.accepted_bookings).sum →
       (calculate_final_score (fun _ => true) freshP).overbooking_penalty
           = (((showUpCountsFrom (fun _ => true) 0 freshP.accepted_bookings).sum : Int)
                - 100) * 6000 ∧
       (calculate_final_score (fun _ => true) freshP).underbooking_penalty = 0) ∧
     ((showUpCountsFrom (fun _ => true) 0 freshP.accepted_bookings).sum < 100 →
       (calculate_final_score (fun _ => true) freshP).underbooking_penalty
           = (100 - ((showUpCountsFrom (fun _ => true) 0
                freshP.accepted_bookings).sum : Int)) * 3000 ∧
       (calculate_final_score (fun _ => true) freshP).overbooking_penalty = 0) ∧
     ((showUpCountsFrom (fun _ => true) 0 freshP.accepted_bookings).sum = 100 →
       (calculate_final_score (fun _ => true) freshP).overbooking_penalty = 0 ∧
       (calculate_final_score (fun _ => true) freshP).underbooking_penalty = 0) ∧
     (calculate_final_score (fun _ => true) freshP).total_score
       = (calculate_final_score (fun _ => true) freshP).final_revenue
         - (calculate_final_score (fun _ => true) freshP).overbooking_penalty
         - (calculate_final_score (fun _ => true) freshP).underbooking_penalty) :=
  ⟨rfl, rfl, c7_scoring (fun _ => true) freshP rfl rfl⟩

/-- Claim C10: a player with no accepted bookings and zero penalty fields
is scored deterministically under every coin stream: zero revenue, zero
overbooking penalty, the maximal underbooking penalty 100 * 3000 = 300000,
and total score -300000. -/
theorem c10_no_accepts (shows : Nat → Bool) (p : Player)
    (hacc : p.accepted_bookings = [])
    (hov : p.overbooking_penalty = 0) (hun : p.underbooking_penalty = 0) :
    (calculate_final_score shows p).final_revenue = 0 ∧
    (calculate_final_score shows p).overbooking_penalty = 0 ∧
    (calculate_final_score shows p).underbooking_penalty = 100 * 3000 ∧
    (calculate_final_score shows p).total_score = -(100 * 3000) := by
  unfold calculate_final_score
  rw [hacc]
  dsimp only [scoreLoop]
  norm_num [FLIGHT_CAPACITY, UNDERBOOKING_PENALTY_PER_SEAT, hov, hun]

/-- Claim C10 witness: the deterministic-loss fact applied to the concrete
host player under the no-show coin stream. -/
theorem c10_witness :
    hostP.accepted_bookings = [] ∧
    hostP.overbooking_penalty = 0 ∧ hostP.underbooking_penalty = 0 ∧
    ((calculate_final_score (fun _ => false) hostP).final_revenue = 0 ∧
     (calculate_final_score (fun _ => false) hostP).overbooking_penalty = 0 ∧
     (calculate_final_score (fun _ => false) hostP).underbooking_penalty = 100 * 3000 ∧
     (calculate_final_score (fun _ => false) hostP).total_score = -(100 * 3000)) :=
  ⟨rfl, rfl, rfl, c10_no_accepts (fun _ => false) hostP rfl rfl rfl⟩

/-- Claim C9: `broadcast_html` attempts delivery to every registered
(player id, connection) pair in order; a closed connection's send failure
is caught per-connection, so the broadcast never raises and every open
connection still receives the payload — the result is exactly the
in-order delivery log over the open connections. -/
theorem c9_broadcast_skips_closed (conns : List (String × Conn)) (html : String) :
    broadcast_html conns html
      = Except.ok ((conns.filter (fun pc => !pc.2.closed)).map
          (fun pc => (pc.1, html))) := by
  induction conns with
  | nil => rfl
  | cons hd tl ih =>
      obtain ⟨pid, c⟩ := hd
      by_cases hc : c.closed <;>
        simp [broadcast_html, sendText, hc, ih, List.filter_cons]

/-- A passenger profile draw whose region component lies in the
pre-selected subset of `regionAnchorDraw`. -/
def goaProfile : PassengerRand :=
  { profession := "Doctor", sex := "Male", age_group := "26-40", region := "Goa" }

/-- A possible set of draws for one booking: the anchor dimension is
region, the pre-selected subset is Assam / Bihar / Goa, and the anchor
value drawn by `random.choice(INDIAN_STATES)` is Kerala — a state outside
the subset. -/
def regionAnchorDraw : BookingRand :=
  { volume := 5, price_per_seat := 4000,
    anchor_type := "region",
    selected_regions := ["Assam", "Bihar", "Goa"],
    anchor_value := "Kerala",
    passenger_rands := List.replicate 5 goaProfile }

/-- Claim C8 counterexample: a valid draw (every component inside its
distribution's support) produces a region-anchored booking whose anchor
value is not in the booking's pre-selected three-state subset, because
the source draws the region anchor from the full state list. -/
theorem c8_counterexample :
    regionAnchorDraw.Valid ∧
    regionAnchorDraw.anchor_type = "region" ∧
    (generateBooking 0 regionAnchorDraw).anchor_type = "Region" ∧
    (generateBooking 0 regionAnchorDraw).anchor_value
      ∉ regionAnchorDraw.selected_regions := by
  decide

/-- Claim C8 amended: for a region-anchored booking the anchor value is
drawn from the full region list, not from the pre-selected subset; the
subset (of size min(3, total regions)) restricts only the non-anchored
passenger region values, i.e. the region values of every passenger of a
booking whose anchor dimension is not region. -/
theorem c8_region_draws (i : Nat) (r : BookingRand) (hv : r.Valid) :
    (r.anchor_type = "region" →
      (generateBooking i r).anchor_value ∈ INDIAN_STATES) ∧
    (r.anchor_type ≠ "region" →
      ∀ pa ∈ (generateBooking i r).passengers,
        pa.region ∈ r.selected_regions) ∧
    r.selected_regions.length = min INDIAN_STATES.length 3 := by
  obtain ⟨-, -, -, hlen, -, -, -, -, -, hreg, -, hpass⟩ := hv
  refine ⟨fun h => hreg h, ?_, hlen⟩
  intro hne pa hpa
  simp only [generateBooking, List.mem_map] at hpa
  obtain ⟨pr, hpr, rfl⟩ := hpa
  simp only [mkPassenger, if_neg hne]
  exact (hpass pr hpr).2.2.2

/-- Claim C8 witness: the amended claim applied to the concrete
region-anchored draw; its Kerala anchor is indeed a real state. -/
theorem c8_witness :
    regionAnchorDraw.Valid ∧
    ((regionAnchorDraw.anchor_type = "region" →
       (generateBooking 0 regionAnchorDraw).anchor_value ∈ INDIAN_STATES) ∧
     (regionAnchorDraw.anchor_type ≠ "region" →
       ∀ pa ∈ (generateBooking 0 regionAnchorDraw).passengers,
         pa.region ∈ regionAnchorDraw.selected_regions) ∧
     regionAnchorDraw.selected_regions.length = min INDIAN_STATES.length 3) :=
  ⟨by decide, c8_region_draws 0 regionAnchorDraw (by decide)⟩

end KaathuvaaklaKaasu
